import Mathlib

/-!
Verification development for the fact-check orchestration engine
(`court_manager.py` and `fake_news.py`).

Python strings are embedded as `List Char` (`Str`); `str` converts a Lean
string literal into that representation.  Fallible external calls (the
court hearing, the LLM oracles) are embedded as `Except` values or
oracle functions supplied as parameters, mirroring the `try/except`
structure of the source.  File writes are embedded as the exact character
sequences the source appends.
-/

namespace FactCheck

abbrev Str := List Char

def str (s : String) : Str := s.data

/-! ## Court data model (result shapes produced by `model_court` and
consumed by `CourtManager.verify_text`) -/

/-- One jury vote inside a claim result (`res.jury_votes` elements). -/
structure JuryVote where
  jury_name : Str
  decision : Str
  reason : Str
deriving DecidableEq

/-- One claim result from the court report (`report.claims` elements). -/
structure ClaimResult where
  verdict : Str
  jury_votes : List JuryVote
  judge_reasoning : Str
deriving DecidableEq

/-- The report returned by `court.hear`. -/
structure CourtReport where
  claims : List ClaimResult
deriving DecidableEq

/-- The dict returned by `CourtManager.verify_text` and threaded through
`convert_court_result_to_user_format`: keys `confidence` and `details`. -/
structure CourtResult where
  confidence : Str
  details : Str
deriving DecidableEq

/-! ## `CourtManager.verify_text` (court_manager.py lines 190-264) -/

/-- `verdict_map.get(res.verdict, "SUSPICIOUS")`: the dictionary
`{"supported": "CLEAN", "suspicious": "SUSPICIOUS", "refuted": "FAKE"}`
looked up with default `"SUSPICIOUS"`. -/
def verdictMap (v : Str) : Str :=
  if v = str "supported" then str "CLEAN"
  else if v = str "suspicious" then str "SUSPICIOUS"
  else if v = str "refuted" then str "FAKE"
  else str "SUSPICIOUS"

/-- The per-vote detail lines built in the `for vote in res.jury_votes`
loop of `verify_text` (lines 251-255). -/
def voteLines (v : JuryVote) : List Str :=
  (str "  " ++ (if v.decision = str "no_objection" then str "✓" else str "⚠")
      ++ str " " ++ v.jury_name ++ str ": " ++ v.decision)
    :: (if v.reason ≠ [] then
          [str "     Reasoning: " ++ v.reason.take 200 ++ str "..."]
        else [])

/-- The `details_lines` list built by `verify_text` (lines 238-255). -/
def detailLines (res : ClaimResult) (mapped : Str) : List Str :=
  let icon := if mapped = str "CLEAN" then str "✓"
    else if mapped = str "FAKE" then str "✗" else str "⚠"
  [icon ++ str " Overall Verdict: " ++ mapped, str ""]
    ++ (if res.judge_reasoning ≠ [] then
          [str "Judge\x27s Reasoning:", res.judge_reasoning, str ""]
        else [])
    ++ [str "Jury Votes:"]
    ++ res.jury_votes.flatMap voteLines

/-- `"\n".join(details_lines)` followed by the empty-string fallback
(lines 257-259). -/
def detailsFor (res : ClaimResult) (mapped : Str) : Str :=
  let joined := List.intercalate (str "\n") (detailLines res mapped)
  if joined = [] then
    str "Content verified. No logical fallacies or factual errors detected by the jury."
  else joined

/-- The pure tail of `CourtManager.verify_text` (lines 196-264): turn the
court report into the `{"confidence": ..., "details": ...}` dict.  The
empty-claims branch mirrors lines 203-207. -/
def verifyTextResult (report : CourtReport) : CourtResult :=
  match report.claims with
  | [] => ⟨str "N/A", str "No claims were processed by the court."⟩
  | res :: _ =>
    let mapped := verdictMap res.verdict
    ⟨mapped, detailsFor res mapped⟩

/-- `safe_text = text[:12000]` (line 192): the text handed to
`court.hear`. -/
def hearInput (text : Str) : Str := text.take 12000

/-- `CourtManager.verify_text`: truncate, run the hearing oracle, map the
report.  A hearing failure propagates to the caller as `Except.error`. -/
def verifyText (text : Str) (hear : Str → Except Str CourtReport) :
    Except Str CourtResult :=
  (hear (hearInput text)).map verifyTextResult

/-! ## String helpers mirroring Python `str` methods -/

/-- Python `s.strip()`: drop whitespace from both ends. -/
def pyStrip (s : Str) : Str :=
  ((s.dropWhile Char.isWhitespace).reverse.dropWhile Char.isWhitespace).reverse

/-- Fuel-driven worker for `removeAll`. -/
def removeAllF (pat : Str) : Nat → Str → Str
  | 0, t => t
  | _, [] => []
  | Nat.succ n, c :: cs =>
    if pat ≠ [] ∧ pat.isPrefixOf (c :: cs) then
      removeAllF pat n ((c :: cs).drop pat.length)
    else c :: removeAllF pat n cs

/-- Python `s.replace(pat, "")`: remove every occurrence of `pat`. -/
def removeAll (pat : Str) (s : Str) : Str := removeAllF pat s.length s

/-- Python `s.replace(pat, "", 1)`: remove the first occurrence of `pat`. -/
def removeFirst (pat : Str) : Str → Str
  | [] => []
  | c :: cs =>
    if pat ≠ [] ∧ pat.isPrefixOf (c :: cs) then (c :: cs).drop pat.length
    else c :: removeFirst pat cs

/-- Python `s.split('\n')` (keeps empty pieces; `"".split('\n') = ['']`). -/
def splitNl : Str → List Str
  | [] => [[]]
  | c :: cs =>
    let r := splitNl cs
    if c = '\n' then [] :: r
    else
      match r with
      | [] => [[c]]
      | l :: ls => (c :: l) :: ls

/-- Python `pat in s`: substring containment. -/
def containsSub (pat : Str) : Str → Bool
  | [] => pat.isPrefixOf []
  | c :: cs => pat.isPrefixOf (c :: cs) || containsSub pat cs

/-! ## `convert_court_result_to_user_format` (fake_news.py lines 481-610) -/

/-- The three user-facing labels accepted by the VERDICT parser
(line 590). -/
def outputLabels : List Str := [str "CLEAN", str "SUSPICIOUS", str "FAKE"]

/-- The `for i, line in enumerate(lines)` loop of
`convert_court_result_to_user_format` (lines 586-596).  Carries
`final_confidence`; returns it plus the MESSAGE-derived details when a
`MESSAGE:` line was reached (which `break`s the loop). -/
def convLoop (fc : Str) : List Str → Str × Option Str
  | [] => (fc, none)
  | line :: rest =>
    if (str "VERDICT:").isPrefixOf line then
      let v := pyStrip (removeAll (str "VERDICT:") line)
      let fc' := if v ∈ outputLabels then v else fc
      convLoop fc' rest
    else if (str "MESSAGE:").isPrefixOf line then
      (fc, some (pyStrip (removeFirst (str "MESSAGE:")
        (List.intercalate (str "\n") (line :: rest)))))
    else convLoop fc rest

/-- `convert_court_result_to_user_format`.  `oracle` is the outcome of the
`client.generate` call (`.ok` carries `response['result']`); any exception
inside the `try` block returns the original `court_result` unchanged
(lines 607-610).  The success path mirrors lines 577-605. -/
def convertCourtResult (cr : CourtResult) (oracle : Except Str Str) :
    CourtResult :=
  match oracle with
  | .error _ => cr
  | .ok resultRaw =>
    let rt := pyStrip resultRaw
    let p := convLoop cr.confidence (splitNl rt)
    let details0 := match p.2 with
      | some m => m
      | none => rt
    let details :=
      if p.1 = cr.confidence ∧ containsSub (str "VERDICT:") rt = false then rt
      else details0
    ⟨p.1, details⟩

/-! ## `extract_facts_claude` truncation (fake_news.py line 319) -/

/-- `text_facts = text[:15000]`: the query handed to the extraction
oracle. -/
def extractFactsQuery (text : Str) : Str := text.take 15000

/-! ## `call_factcheck_service` (fake_news.py lines 686-792) -/

/-- Decimal rendering of a number used in f-strings. -/
def numStr (n : Nat) : Str := (Nat.repr n).data

/-- `facts_text = "\n".join([f"{i}. {fact}" for i, fact in
enumerate(facts_list, 1)])` (line 739). -/
def factsText (facts : List Str) : Str :=
  List.intercalate (str "\n")
    ((facts.enum).map fun p => numStr (p.1 + 1) ++ str ". " ++ p.2)

/-- The fallback details written when the Model Court raises
(lines 780-783). -/
def fallbackDetails (factCount : Nat) : Str :=
  str "Content verification completed. " ++ numStr factCount
    ++ str " claims analyzed. (Model Court temporarily unavailable, using fallback mode)"

/-- `call_factcheck_service`: empty-facts short circuit (lines 731-735),
court invocation through `verify_text`, CLEAN fallback on a Model Court
exception (lines 773-783), then user-format conversion. -/
def callFactcheckService (facts : List Str)
    (hear : Str → Except Str CourtReport) (convOracle : Except Str Str) :
    CourtResult :=
  if facts = [] then
    ⟨str "N/A", str "No facts extracted for verification."⟩
  else
    match verifyText (factsText facts) hear with
    | .error _ => ⟨str "CLEAN", fallbackDetails facts.length⟩
    | .ok cr => convertCourtResult cr convOracle

/-- Severity ranking of the user-facing tiers, written from the words of
the specification for the override-direction claim: `CLEAN` is the most
favorable tier, `FAKE` the least. -/
def tierRank (lbl : Str) : Nat :=
  if lbl = str "CLEAN" then 0
  else if lbl = str "SUSPICIOUS" then 1
  else 2

/-! ## `/api/feedback` handler `submit_feedback` (fake_news.py lines 113-177) -/

/-- The request fields read from the JSON body with `data.get(..., '')`
(lines 137-141). -/
structure FeedbackReqData where
  url : Str
  content_background : Str
  feedback_content : Str
  feedback_type : Str
  feedback_prove : Str
deriving DecidableEq

/-- The JSON response of the handler. -/
structure SubmitResp where
  success : Bool
  message : Str
  status : Nat
deriving DecidableEq

/-- `['fact', 'suspicious_fact', 'fake_fact']` (line 146). -/
def allowedTypes : List Str :=
  [str "fact", str "suspicious_fact", str "fake_fact"]

/-- `submit_feedback`: the validation chain of lines 146-162 and, on
success, the call to `save_user_feedback` (line 165).  The second
component is the submission handed to the ledger append path (`none`
when validation rejected the request before any write). -/
def submitFeedback (d : FeedbackReqData) :
    SubmitResp × Option FeedbackReqData :=
  if d.feedback_type = [] ∨ d.feedback_type ∉ allowedTypes then
    (⟨false, str "Invalid feedback type", 400⟩, none)
  else if d.feedback_content = [] ∨ d.feedback_content.length < 10 then
    (⟨false, str "Please provide the fact content (at least 10 characters)", 400⟩,
      none)
  else if d.feedback_prove = [] ∨ d.feedback_prove.length < 10 then
    (⟨false, str "Please provide evidence/proof (at least 10 characters)", 400⟩,
      none)
  else
    (⟨true, str "Thank you for your feedback!", 200⟩, some d)

/-! ## `save_user_feedback` ledger append (fake_news.py lines 613-683)

The ledger file `data/user_feedback_db.txt` is embedded as the character
sequence of its content; each append is the exact concatenation of the
`f.write` calls of lines 655-675. -/

/-- One feedback record as written to the ledger: the five request fields
plus the `datetime.now().isoformat()` stamp. -/
structure FeedbackRecord where
  url : Str
  bg : Str
  content : Str
  ftype : Str
  proveTxt : Str
  ts : Str
deriving DecidableEq

/-- `"=" * 80`, the marker line of the record header. -/
def sepLine : Str := List.replicate 80 '='

/-- `"[USER FEEDBACK] "`, the stamp-line tag of the record header. -/
def hdrTag : Str := str "[USER FEEDBACK] "

/-- The `TYPE:` line chosen by the `if feedback_type == ...` chain
(lines 662-669). -/
def typeLine (ftype : Str) : Str :=
  str "TYPE: " ++
    (if ftype = str "fact" then str "✓ VERIFIED AS TRUE"
     else if ftype = str "suspicious_fact" then str "⚠ MARKED AS SUSPICIOUS"
     else if ftype = str "fake_fact" then str "✗ REPORTED AS FAKE"
     else ftype.map Char.toUpper)

/-- The exact characters appended to the ledger for one record:
concatenation of the `f.write` calls of lines 655-675. -/
def serText (r : FeedbackRecord) : Str :=
  str "\n" ++ sepLine ++ str "\n"
    ++ hdrTag ++ r.ts ++ str "\n"
    ++ sepLine ++ str "\n"
    ++ str "URL: " ++ r.url ++ str "\n\n"
    ++ typeLine r.ftype ++ str "\n"
    ++ str "\nCLAIM:\n" ++ r.content ++ str "\n\n"
    ++ str "EVIDENCE/PROOF:\n" ++ r.proveTxt ++ str "\n\n"
    ++ (if r.bg ≠ [] then
          str "CONTEXT:\n" ++ r.bg.take 300 ++ str "...\n\n"
        else [])

/-- `open(user_feedback_db_path, 'a')` followed by the writes: append the
serialized record to the ledger text. -/
def ledgerAppend (ledger : Str) (r : FeedbackRecord) : Str :=
  ledger ++ serText r

/-- Sequential submissions: append each record in order. -/
def appendAll (ledger : Str) (rs : List FeedbackRecord) : Str :=
  rs.foldl ledgerAppend ledger

/-- The content `CourtManager._init_directories` writes when creating the
ledger file (court_manager.py lines 36-40). -/
def initLedger : Str :=
  str "--- Trusted User Feedback Database Initialized ---\n"

/-! ### Reader side: recovering record boundaries from the ledger text -/

/-- One fold step of the newline splitter. -/
def lineStep (c : Char) (acc : List Str) : List Str :=
  if c = '\n' then [] :: acc
  else
    match acc with
    | [] => [[c]]
    | l :: ls => (c :: l) :: ls

/-- Split a text into its lines (a trailing newline produces no extra
empty line). -/
def linesOf (t : Str) : List Str := t.foldr lineStep []

/-- Count the record headers: positions where the `"=" * 80` marker line
is immediately followed by a `"[USER FEEDBACK] "` stamp line. -/
def countHeaders : List Str → Nat
  | a :: b :: rest =>
    (if a = sepLine ∧ hdrTag.isPrefixOf b then 1 else 0)
      + countHeaders (b :: rest)
  | _ => 0

/-- The `"CLAIM:"` tag line written before each record claim. -/
def claimTag : Str := str "CLAIM:"

/-- Recover, in order, the claim text of every record: the line that
follows each `"CLAIM:"` tag line. -/
def parseClaims : List Str → List Str
  | [] => []
  | a :: rest =>
    if a = claimTag then
      match rest with
      | [] => []
      | b :: rest2 => b :: parseClaims rest2
    else parseClaims rest

/-- The line list of one serialized record (the serialization writes each
of these lines followed by a newline). -/
def serLineList (r : FeedbackRecord) : List Str :=
  [[], sepLine, hdrTag ++ r.ts, sepLine, str "URL: " ++ r.url, [],
    typeLine r.ftype, [], claimTag, r.content, [],
    str "EVIDENCE/PROOF:", r.proveTxt, []]
    ++ (if r.bg ≠ [] then
          [str "CONTEXT:", r.bg.take 300 ++ str "...", []]
        else [])

/-- Join lines back into a newline-terminated text. -/
def joinT (ls : List Str) : Str :=
  ls.foldr (fun l acc => l ++ '\n' :: acc) []

/-- A text contains no newline character. -/
def noNl (s : Str) : Prop := '\n' ∉ s

instance (s : Str) : Decidable (noNl s) := by
  unfold noNl
  infer_instance

/-- Tameness of a record: its free-text fields are single lines and do
not forge the `"CLAIM:"` tag line.  (A field equal to the tag or spanning
several lines could confuse a boundary reader; the append path writes
such fields verbatim.) -/
def tame (r : FeedbackRecord) : Prop :=
  noNl r.ts ∧ noNl r.url ∧ noNl (typeLine r.ftype) ∧ noNl r.content
    ∧ noNl r.proveTxt ∧ noNl r.bg
    ∧ r.proveTxt ≠ claimTag
    ∧ r.bg.take 300 ++ str "..." ≠ claimTag

instance (r : FeedbackRecord) : Decidable (tame r) := by
  unfold tame
  infer_instance

/-! ## `CourtManager.build_court` (court_manager.py lines 60-188) -/

/-- Reference material bound to a jury: none, the local RAG store, or a
static text snapshot (`SimpleTextStorage(text=...)`). -/
inductive JuryRef where
  | noRef : JuryRef
  | ragRef : JuryRef
  | snapshot : Str → JuryRef
deriving DecidableEq

/-- A configured jury: name, model identifier, reference material. -/
structure JuryCfg where
  name : Str
  model : Str
  reference : JuryRef
deriving DecidableEq

/-- A verdict rule: a comparator with a threshold, or the terminal
default. -/
inductive VerdictRule where
  | opRule : Str → ℚ → VerdictRule
  | defaultRule : VerdictRule
deriving DecidableEq

/-- The assembled court configuration (the `Court(...)` call of
lines 177-188). -/
structure CourtCfg where
  juries : List JuryCfg
  verdictRules : List (Str × VerdictRule)
  quorum : Nat
  concurrencyLimit : Nat
deriving DecidableEq

/-- `CourtManager.build_court`: `ledger` is the content of
`data/user_feedback_db.txt` at build time (`self.user_feedback_path.
read_text()`, line 158), captured as the static snapshot of the
`User_Feedback_Jury`.  Jury prompt texts are oracle payload and are not
modeled. -/
def buildCourt (ledger : Str) : CourtCfg where
  juries :=
    [⟨str "Logic_GPT", str "openai/gpt-4o-mini", .noRef⟩,
     ⟨str "Logic_Gemini", str "google/gemini-2.5-flash-lite", .noRef⟩,
     ⟨str "Web_Search_Jury", str "perplexity/sonar", .noRef⟩,
     ⟨str "RAG_Jury", str "openai/gpt-4o-mini", .ragRef⟩,
     ⟨str "User_Feedback_Jury", str "openai/gpt-4o-mini", .snapshot ledger⟩]
  verdictRules :=
    [(str "supported", .opRule (str "eq") 0),
     (str "suspicious", .opRule (str "lt") (1 / 2)),
     (str "refuted", .defaultRule)]
  quorum := 3
  concurrencyLimit := 5

/-- The ledger snapshots held by the juries of a court configuration
(one entry per jury whose reference is a ledger snapshot). -/
def feedbackSnaps (c : CourtCfg) : List Str :=
  c.juries.filterMap fun j =>
    match j.reference with
    | .snapshot t => some t
    | _ => none

/-! ## Helper lemmas -/

theorem verdictMap_mem (v : Str) : verdictMap v ∈ outputLabels := by
  unfold verdictMap outputLabels
  split_ifs <;> simp

theorem convLoop_fst_mem (fc : Str) (lines : List Str) :
    (convLoop fc lines).1 = fc ∨ (convLoop fc lines).1 ∈ outputLabels := by
  induction lines generalizing fc with
  | nil => left; rfl
  | cons line rest ih =>
    by_cases h1 : (str "VERDICT:").isPrefixOf line
    · simp only [convLoop, h1, if_true]
      set v := pyStrip (removeAll (str "VERDICT:") line) with hv
      by_cases h2 : v ∈ outputLabels
      · simp only [h2, if_true]
        rcases ih v with h | h
        · right; rw [h]; exact h2
        · right; exact h
      · simp only [h2, if_false]
        exact ih fc
    · by_cases h2 : (str "MESSAGE:").isPrefixOf line
      · simp only [convLoop, h1, h2, if_true, if_false]
        left; rfl
      · simp only [convLoop, h1, h2, if_false]
        exact ih fc

theorem convertCourtResult_conf_mem (cr : CourtResult) (o : Except Str Str) :
    (convertCourtResult cr o).confidence = cr.confidence
      ∨ (convertCourtResult cr o).confidence ∈ outputLabels := by
  cases o with
  | error e => left; rfl
  | ok t => exact convLoop_fst_mem cr.confidence (splitNl (pyStrip t))

theorem serText_ne_nil (r : FeedbackRecord) : serText r ≠ [] := by
  intro h
  have h2 : (serText r).head? = some '\n' := rfl
  rw [h] at h2
  exact Option.noConfusion h2

/-! ## Claim theorems -/

/-- C10: if the user-friendly conversion step fails with any exception,
`convert_court_result_to_user_format` returns the original court result
unchanged (same confidence label and details), so a conversion failure
never alters or loses the court verdict. -/
theorem c10_convert_failure_preserves (cr : CourtResult) (e : Str) :
    convertCourtResult cr (Except.error e) = cr := rfl

/-- C9: a court result whose verdict string is outside
`{supported, suspicious, refuted}` is mapped by `verify_text` to the
conservative label `SUSPICIOUS` (the dictionary-lookup default), never to
the clean label and never to an error value. -/
theorem c9_unknown_verdict_suspicious (res : ClaimResult)
    (rest : List ClaimResult)
    (h1 : res.verdict ≠ str "supported")
    (h2 : res.verdict ≠ str "suspicious")
    (h3 : res.verdict ≠ str "refuted") :
    (verifyTextResult ⟨res :: rest⟩).confidence = str "SUSPICIOUS" := by
  simp only [verifyTextResult, verdictMap, h1, h2, h3, if_false]

/-- Witness for C9 at a concrete unrecognized verdict. -/
theorem c9_witness :
    (verifyTextResult ⟨[⟨str "weird_verdict", [], []⟩]⟩).confidence
      = str "SUSPICIOUS" :=
  c9_unknown_verdict_suspicious ⟨str "weird_verdict", [], []⟩ []
    (by decide) (by decide) (by decide)

/-- C7: the engine truncates the claim text to a configured maximum
before any oracle call: `verify_text` hands `court.hear` exactly the
first 12000 characters, and `extract_facts_claude` queries the
extraction oracle with exactly the first 15000 characters. -/
theorem c7_truncation (t : Str) (hear : Str → Except Str CourtReport) :
    verifyText t hear = (hear (t.take 12000)).map verifyTextResult
      ∧ (hearInput t).length ≤ 12000
      ∧ extractFactsQuery t = t.take 15000
      ∧ (extractFactsQuery t).length ≤ 15000 := by
  refine ⟨rfl, ?_, rfl, ?_⟩
  · simp only [hearInput, List.length_take]
    exact Nat.min_le_left _ _
  · simp only [extractFactsQuery, List.length_take]
    exact Nat.min_le_left _ _

/-- C5: `submit_feedback` validates the feedback type and the minimum
lengths of content and evidence before accepting; a write reaches the
ledger only when all three validations pass, and a submission whose
`feedback_content` has 9 characters is rejected with no write. -/
theorem c5_validation (d : FeedbackReqData) :
    ((submitFeedback d).2 ≠ none →
        d.feedback_type ∈ allowedTypes
          ∧ 10 ≤ d.feedback_content.length
          ∧ 10 ≤ d.feedback_prove.length)
      ∧ (d.feedback_content.length = 9 →
          (submitFeedback d).1.success = false
            ∧ (submitFeedback d).2 = none) := by
  constructor
  · intro h
    by_cases h1 : d.feedback_type = [] ∨ d.feedback_type ∉ allowedTypes
    · simp only [submitFeedback, h1, if_true] at h
      exact absurd rfl h
    · by_cases h2 : d.feedback_content = [] ∨ d.feedback_content.length < 10
      · simp only [submitFeedback, h1, h2, if_true, if_false] at h
        exact absurd rfl h
      · by_cases h3 : d.feedback_prove = [] ∨ d.feedback_prove.length < 10
        · simp only [submitFeedback, h1, h2, h3, if_true, if_false] at h
          exact absurd rfl h
        · push_neg at h1 h2 h3
          exact ⟨h1.2, by omega, by omega⟩
  · intro h9
    have h2 : d.feedback_content = [] ∨ d.feedback_content.length < 10 :=
      Or.inr (by omega)
    by_cases h1 : d.feedback_type = [] ∨ d.feedback_type ∉ allowedTypes
    · simp only [submitFeedback, h1, if_true]
      exact ⟨trivial, trivial⟩
    · simp only [submitFeedback, h1, h2, if_true, if_false]
      exact ⟨trivial, trivial⟩

/-- Witness for C5: a concrete 9-character `feedback_content` is rejected
and produces no ledger write. -/
theorem c5_witness :
    (submitFeedback ⟨[], [], str "ninechars", str "fact",
        str "plenty of evidence"⟩).1.success = false
      ∧ (submitFeedback ⟨[], [], str "ninechars", str "fact",
          str "plenty of evidence"⟩).2 = none :=
  (c5_validation ⟨[], [], str "ninechars", str "fact",
      str "plenty of evidence"⟩).2 (by decide)

/-- C6: the jury bound to the Feedback Ledger receives exactly one
point-in-time snapshot captured at `build_court` time — the snapshot list
of a built court is the singleton of the ledger content at build time —
and a record appended after one build is part of the snapshot only of
courts built afterwards (the appended ledger differs from the earlier
snapshot). -/
theorem c6_snapshot_at_build (s : Str) (r : FeedbackRecord) :
    feedbackSnaps (buildCourt s) = [s]
      ∧ feedbackSnaps (buildCourt (ledgerAppend s r)) = [ledgerAppend s r]
      ∧ ledgerAppend s r ≠ s := by
  refine ⟨rfl, rfl, ?_⟩
  intro h
  have hlen := congrArg List.length h
  rw [ledgerAppend, List.length_append] at hlen
  have hz : (serText r).length = 0 := by omega
  exact serText_ne_nil r (List.length_eq_zero.mp hz)

/-- C2 counterexample: with baseline label `CLEAN` and a conversion
oracle output whose VERDICT line says `FAKE`,
`convert_court_result_to_user_format` returns the strictly less
favorable label `FAKE`, so the override evaluation is not
one-directional toward the favorable tier. -/
theorem c2_counterexample :
    (convertCourtResult ⟨str "CLEAN", str "all good"⟩
        (Except.ok (str "VERDICT: FAKE\nMESSAGE: bad news"))).confidence
        = str "FAKE"
      ∧ tierRank ((convertCourtResult ⟨str "CLEAN", str "all good"⟩
          (Except.ok (str "VERDICT: FAKE\nMESSAGE: bad news"))).confidence)
        > tierRank (str "CLEAN") := by
  constructor
  · decide
  · decide

/-- C2 (amended): the final label returned by
`convert_court_result_to_user_format` is always either the baseline
label unchanged or one of the three enumerated labels parsed from the
conversion oracle VERDICT line; the adjustment is not constrained to the
favorable direction. -/
theorem c2_final_label_baseline_or_enumerated (cr : CourtResult)
    (o : Except Str Str) :
    (convertCourtResult cr o).confidence = cr.confidence
      ∨ (convertCourtResult cr o).confidence ∈ outputLabels :=
  convertCourtResult_conf_mem cr o

/-- C1 counterexample: a round in which the Model Court fails yields the
favorable label `CLEAN`, not the conservative `SUSPICIOUS` tier, from
`call_factcheck_service`. -/
theorem c1_counterexample :
    (callFactcheckService [str "The sky is green"]
        (fun _ => Except.error (str "court down"))
        (Except.error [])).confidence = str "CLEAN"
      ∧ (callFactcheckService [str "The sky is green"]
          (fun _ => Except.error (str "court down"))
          (Except.error [])).confidence ≠ str "SUSPICIOUS" := by
  constructor
  · rfl
  · decide

/-- C1 (amended): when the Model Court hearing raises, the caller of
`call_factcheck_service` still receives a structured report — never an
opaque error — but its label is the favorable `CLEAN` tier with a
fallback note, not the conservative tier. -/
theorem c1_court_failure_fallback (facts : List Str)
    (hear : Str → Except Str CourtReport) (conv : Except Str Str) (e : Str)
    (hf : facts ≠ [])
    (hh : hear (hearInput (factsText facts)) = Except.error e) :
    callFactcheckService facts hear conv
      = ⟨str "CLEAN", fallbackDetails facts.length⟩ := by
  rw [callFactcheckService, if_neg hf, verifyText, hh]
  rfl

/-- Witness for C1 (amended) at a concrete failing hearing. -/
theorem c1_witness :
    callFactcheckService [str "fact one"]
        (fun _ => Except.error (str "boom")) (Except.ok [])
      = ⟨str "CLEAN", fallbackDetails 1⟩ :=
  c1_court_failure_fallback [str "fact one"]
    (fun _ => Except.error (str "boom")) (Except.ok []) (str "boom")
    (by decide) rfl

/-- C4: on a successful verification round (the facts list is nonempty
and the court hearing produced a report with at least one claim) the
final verdict surfaced by `call_factcheck_service` is exactly one of the
three enumerated output labels, whatever the conversion oracle does. -/
theorem c4_verdict_enumerated (facts : List Str)
    (hear : Str → Except Str CourtReport) (conv : Except Str Str)
    (report : CourtReport)
    (hf : facts ≠ [])
    (hh : hear (hearInput (factsText facts)) = Except.ok report)
    (hc : report.claims ≠ []) :
    (callFactcheckService facts hear conv).confidence ∈ outputLabels := by
  rw [callFactcheckService, if_neg hf, verifyText, hh]
  show (convertCourtResult (verifyTextResult report) conv).confidence
    ∈ outputLabels
  have hbase : (verifyTextResult report).confidence ∈ outputLabels := by
    cases hcl : report.claims with
    | nil => exact absurd hcl hc
    | cons res rest =>
      simp only [verifyTextResult, hcl]
      exact verdictMap_mem res.verdict
  rcases convertCourtResult_conf_mem (verifyTextResult report) conv with h | h
  · rw [h]; exact hbase
  · exact h

/-- Witness for C4 at a concrete successful round. -/
theorem c4_witness :
    (callFactcheckService [str "fact one"]
        (fun _ => Except.ok ⟨[⟨str "supported", [], []⟩]⟩)
        (Except.error [])).confidence ∈ outputLabels :=
  c4_verdict_enumerated [str "fact one"]
    (fun _ => Except.ok ⟨[⟨str "supported", [], []⟩]⟩) (Except.error [])
    ⟨[⟨str "supported", [], []⟩]⟩ (by decide) rfl (by decide)

/-! ## Ledger round-trip lemmas (C8) -/

theorem linesOf_chunk (l : Str) (hl : noNl l) (rest : Str) :
    linesOf (l ++ '\n' :: rest) = l :: linesOf rest := by
  induction l with
  | nil => rfl
  | cons c cs ih =>
    have hc : c ≠ '\n' := by
      intro h; exact hl (h ▸ List.mem_cons_self c cs)
    have hcs : noNl cs := fun h => hl (List.mem_cons_of_mem c h)
    show lineStep c (linesOf (cs ++ '\n' :: rest)) = (c :: cs) :: linesOf rest
    rw [ih hcs]
    simp [lineStep, hc]

theorem cons_ne_of_head {a b : Char} (h : a ≠ b) (s t : Str) :
    a :: s ≠ b :: t := by
  intro h2
  injection h2 with h3 _
  exact h h3

theorem linesOf_joinT (ls : List Str) (h : ∀ l ∈ ls, noNl l) (rest : Str) :
    linesOf (joinT ls ++ rest) = ls ++ linesOf rest := by
  induction ls with
  | nil => simp [joinT]
  | cons l ls ih =>
    have h1 : noNl l := h l (List.mem_cons_self l ls)
    have h2 : ∀ x ∈ ls, noNl x := fun x hx => h x (List.mem_cons_of_mem l hx)
    show linesOf ((l ++ '\n' :: joinT ls) ++ rest) = (l :: ls) ++ linesOf rest
    rw [List.append_assoc, List.cons_append, linesOf_chunk l h1, ih h2]
    rfl

theorem joinT_cons (l : Str) (ls : List Str) :
    joinT (l :: ls) = l ++ '\n' :: joinT ls := rfl

theorem joinT_nil : joinT [] = ([] : Str) := rfl

theorem nl_chunk (x : Str) : str "\n" ++ x = '\n' :: x := rfl

theorem nl2_chunk (x : Str) : str "\n\n" ++ x = '\n' :: '\n' :: x := rfl

theorem claim_chunk (x : Str) :
    str "\nCLAIM:\n" ++ x = '\n' :: (claimTag ++ '\n' :: x) := rfl

theorem ev_chunk (x : Str) :
    str "EVIDENCE/PROOF:\n" ++ x = str "EVIDENCE/PROOF:" ++ '\n' :: x := rfl

theorem ctx_chunk (x : Str) :
    str "CONTEXT:\n" ++ x = str "CONTEXT:" ++ '\n' :: x := rfl

theorem nl2_lit : str "\n\n" = ['\n', '\n'] := rfl

theorem dots_chunk : str "...\n\n" = str "..." ++ ['\n', '\n'] := rfl

theorem serText_joinT (r : FeedbackRecord) : serText r = joinT (serLineList r) := by
  by_cases hb : r.bg = []
  · simp only [serText, serLineList, hb, ne_eq, not_true_eq_false, if_false,
      List.append_nil, joinT_cons, joinT_nil, List.nil_append,
      List.append_assoc, nl_chunk, nl2_chunk, claim_chunk, ev_chunk,
      ctx_chunk, nl2_lit, dots_chunk, List.cons_append]
  · simp only [serText, serLineList, ne_eq, hb, not_false_eq_true, if_true,
      joinT_cons, joinT_nil, List.nil_append, List.append_assoc, nl_chunk,
      nl2_chunk, claim_chunk, ev_chunk, ctx_chunk, nl2_lit, dots_chunk,
      List.cons_append, List.append_nil]

theorem serLineList_noNl (r : FeedbackRecord) (ht : tame r) :
    ∀ l ∈ serLineList r, noNl l := by
  obtain ⟨hts, hurl, htype, hcontent, hprove, hbg, -, -⟩ := ht
  have hsep : noNl sepLine := by decide
  have happ : ∀ (a b : Str), noNl a → noNl b → noNl (a ++ b) := by
    intro a b ha hb hmem
    rcases List.mem_append.mp hmem with h | h
    · exact ha h
    · exact hb h
  have htake : noNl (r.bg.take 300) := fun h => hbg (List.take_subset 300 r.bg h)
  intro l hl
  by_cases hb : r.bg = []
  · simp only [serLineList, hb, ne_eq, not_true_eq_false, if_false,
      List.append_nil, List.mem_cons, List.not_mem_nil, or_false] at hl
    rcases hl with h | h | h | h | h | h | h | h | h | h | h | h | h | h <;>
      subst h
    · decide
    · exact hsep
    · exact happ _ _ (by decide) hts
    · exact hsep
    · exact happ _ _ (by decide) hurl
    · decide
    · exact htype
    · decide
    · decide
    · exact hcontent
    · decide
    · decide
    · exact hprove
    · decide
  · simp only [serLineList, ne_eq, hb, not_false_eq_true, if_true,
      List.mem_append, List.mem_cons, List.not_mem_nil, or_false] at hl
    rcases hl with (h | h | h | h | h | h | h | h | h | h | h | h | h | h) |
        (h | h | h) <;> subst h
    · decide
    · exact hsep
    · exact happ _ _ (by decide) hts
    · exact hsep
    · exact happ _ _ (by decide) hurl
    · decide
    · exact htype
    · decide
    · decide
    · exact hcontent
    · decide
    · decide
    · exact hprove
    · decide
    · decide
    · exact happ _ _ htake (by decide)
    · decide

theorem linesOf_serText (r : FeedbackRecord) (ht : tame r) (rest : Str) :
    linesOf (serText r ++ rest) = serLineList r ++ linesOf rest := by
  rw [serText_joinT, linesOf_joinT _ (serLineList_noNl r ht)]

theorem countHeaders_skip (a : Str) (rest : List Str) (h : a ≠ sepLine) :
    countHeaders (a :: rest) = countHeaders rest := by
  cases rest with
  | nil => rfl
  | cons b r => simp [countHeaders, h]

theorem countHeaders_nohdr (a b : Str) (rest : List Str)
    (h : hdrTag.isPrefixOf b = false) :
    countHeaders (a :: b :: rest) = countHeaders (b :: rest) := by
  simp [countHeaders, h]

theorem countHeaders_hit (b : Str) (rest : List Str)
    (h : hdrTag.isPrefixOf b = true) :
    countHeaders (sepLine :: b :: rest) = 1 + countHeaders (b :: rest) := by
  simp [countHeaders, h]

theorem parseClaims_skip (a : Str) (rest : List Str) (h : a ≠ claimTag) :
    parseClaims (a :: rest) = parseClaims rest := by
  rw [parseClaims.eq_def]
  simp only [h, if_false]

theorem parseClaims_hit (b : Str) (rest : List Str) :
    parseClaims (claimTag :: b :: rest) = b :: parseClaims rest := by
  rw [parseClaims]
  simp

theorem hdr_pre_self (t : Str) : hdrTag.isPrefixOf (hdrTag ++ t) = true := by
  rw [List.isPrefixOf_iff_prefix]
  exact ⟨t, rfl⟩

theorem empty_ne_sep : ([] : Str) ≠ sepLine := by decide

theorem hdr_ne_sep (t : Str) : hdrTag ++ t ≠ sepLine :=
  cons_ne_of_head (by decide) _ _

theorem url_ne_sep (t : Str) : str "URL: " ++ t ≠ sepLine :=
  cons_ne_of_head (by decide) _ _

theorem type_ne_sep (f : Str) : typeLine f ≠ sepLine :=
  cons_ne_of_head (by decide) _ _

theorem claim_ne_sep : claimTag ≠ sepLine := by decide

theorem ev_ne_sep : str "EVIDENCE/PROOF:" ≠ sepLine := by decide

theorem ctx_ne_sep : str "CONTEXT:" ≠ sepLine := by decide

theorem hdr_not_pre_nil : hdrTag.isPrefixOf ([] : Str) = false := rfl

theorem hdr_not_pre_url (t : Str) :
    hdrTag.isPrefixOf (str "URL: " ++ t) = false := rfl

theorem empty_ne_claim : ([] : Str) ≠ claimTag := by decide

theorem sep_ne_claim : sepLine ≠ claimTag := by decide

theorem hdr_ne_claim (t : Str) : hdrTag ++ t ≠ claimTag :=
  cons_ne_of_head (by decide) _ _

theorem url_ne_claim (t : Str) : str "URL: " ++ t ≠ claimTag :=
  cons_ne_of_head (by decide) _ _

theorem type_ne_claim (f : Str) : typeLine f ≠ claimTag :=
  cons_ne_of_head (by decide) _ _

theorem ev_ne_claim : str "EVIDENCE/PROOF:" ≠ claimTag := by decide

theorem ctx_ne_claim : str "CONTEXT:" ≠ claimTag := by decide

theorem countHeaders_serRec (r : FeedbackRecord) (rest : List Str) :
    countHeaders (serLineList r ++ rest) = 1 + countHeaders rest := by
  by_cases hb : r.bg = []
  · simp only [serLineList, hb, ne_eq, not_true_eq_false, if_false,
      List.append_nil, List.cons_append, List.nil_append]
    rw [countHeaders_skip _ _ empty_ne_sep,
      countHeaders_hit _ _ (hdr_pre_self r.ts),
      countHeaders_skip _ _ (hdr_ne_sep r.ts),
      countHeaders_nohdr _ _ _ (hdr_not_pre_url r.url),
      countHeaders_skip _ _ (url_ne_sep r.url),
      countHeaders_skip _ _ empty_ne_sep,
      countHeaders_skip _ _ (type_ne_sep r.ftype),
      countHeaders_skip _ _ empty_ne_sep,
      countHeaders_skip _ _ claim_ne_sep,
      countHeaders_nohdr _ _ _ hdr_not_pre_nil,
      countHeaders_skip _ _ empty_ne_sep,
      countHeaders_skip _ _ ev_ne_sep,
      countHeaders_nohdr _ _ _ hdr_not_pre_nil,
      countHeaders_skip _ _ empty_ne_sep]
  · simp only [serLineList, ne_eq, hb, not_false_eq_true, if_true,
      List.append_assoc, List.cons_append, List.nil_append]
    rw [countHeaders_skip _ _ empty_ne_sep,
      countHeaders_hit _ _ (hdr_pre_self r.ts),
      countHeaders_skip _ _ (hdr_ne_sep r.ts),
      countHeaders_nohdr _ _ _ (hdr_not_pre_url r.url),
      countHeaders_skip _ _ (url_ne_sep r.url),
      countHeaders_skip _ _ empty_ne_sep,
      countHeaders_skip _ _ (type_ne_sep r.ftype),
      countHeaders_skip _ _ empty_ne_sep,
      countHeaders_skip _ _ claim_ne_sep,
      countHeaders_nohdr _ _ _ hdr_not_pre_nil,
      countHeaders_skip _ _ empty_ne_sep,
      countHeaders_skip _ _ ev_ne_sep,
      countHeaders_nohdr _ _ _ hdr_not_pre_nil,
      countHeaders_skip _ _ empty_ne_sep,
      countHeaders_skip _ _ ctx_ne_sep,
      countHeaders_nohdr _ _ _ hdr_not_pre_nil,
      countHeaders_skip _ _ empty_ne_sep]

theorem parseClaims_serRec (r : FeedbackRecord) (rest : List Str)
    (h7 : r.proveTxt ≠ claimTag)
    (h8 : r.bg.take 300 ++ str "..." ≠ claimTag) :
    parseClaims (serLineList r ++ rest) = r.content :: parseClaims rest := by
  by_cases hb : r.bg = []
  · simp only [serLineList, hb, ne_eq, not_true_eq_false, if_false,
      List.append_nil, List.cons_append, List.nil_append]
    rw [parseClaims_skip _ _ empty_ne_claim,
      parseClaims_skip _ _ sep_ne_claim,
      parseClaims_skip _ _ (hdr_ne_claim r.ts),
      parseClaims_skip _ _ sep_ne_claim,
      parseClaims_skip _ _ (url_ne_claim r.url),
      parseClaims_skip _ _ empty_ne_claim,
      parseClaims_skip _ _ (type_ne_claim r.ftype),
      parseClaims_skip _ _ empty_ne_claim,
      parseClaims_hit,
      parseClaims_skip _ _ empty_ne_claim,
      parseClaims_skip _ _ ev_ne_claim,
      parseClaims_skip _ _ h7,
      parseClaims_skip _ _ empty_ne_claim]
  · simp only [serLineList, ne_eq, hb, not_false_eq_true, if_true,
      List.append_assoc, List.cons_append, List.nil_append]
    rw [parseClaims_skip _ _ empty_ne_claim,
      parseClaims_skip _ _ sep_ne_claim,
      parseClaims_skip _ _ (hdr_ne_claim r.ts),
      parseClaims_skip _ _ sep_ne_claim,
      parseClaims_skip _ _ (url_ne_claim r.url),
      parseClaims_skip _ _ empty_ne_claim,
      parseClaims_skip _ _ (type_ne_claim r.ftype),
      parseClaims_skip _ _ empty_ne_claim,
      parseClaims_hit,
      parseClaims_skip _ _ empty_ne_claim,
      parseClaims_skip _ _ ev_ne_claim,
      parseClaims_skip _ _ h7,
      parseClaims_skip _ _ empty_ne_claim,
      parseClaims_skip _ _ ctx_ne_claim,
      parseClaims_skip _ _ h8,
      parseClaims_skip _ _ empty_ne_claim]

theorem appendAll_flatten (L : Str) (rs : List FeedbackRecord) :
    appendAll L rs = L ++ (rs.map serText).flatten := by
  induction rs generalizing L with
  | nil => simp [appendAll]
  | cons r rs ih =>
    show appendAll (ledgerAppend L r) rs = _
    rw [ih, ledgerAppend]
    simp [List.append_assoc]

theorem flat_lines (rs : List FeedbackRecord) (h : ∀ r ∈ rs, tame r) :
    linesOf ((rs.map serText).flatten)
      = (rs.map serLineList).flatten := by
  induction rs with
  | nil => rfl
  | cons r rs ih =>
    have h1 : tame r := h r (List.mem_cons_self r rs)
    have h2 : ∀ x ∈ rs, tame x := fun x hx => h x (List.mem_cons_of_mem r hx)
    simp only [List.map_cons, List.flatten_cons]
    rw [linesOf_serText r h1, ih h2]

theorem flat_count (rs : List FeedbackRecord) (h : ∀ r ∈ rs, tame r) :
    countHeaders ((rs.map serLineList).flatten) = rs.length
      ∧ parseClaims ((rs.map serLineList).flatten)
        = rs.map FeedbackRecord.content := by
  induction rs with
  | nil => exact ⟨rfl, rfl⟩
  | cons r rs ih =>
    have h1 : tame r := h r (List.mem_cons_self r rs)
    have h2 : ∀ x ∈ rs, tame x := fun x hx => h x (List.mem_cons_of_mem r hx)
    obtain ⟨ihc, ihp⟩ := ih h2
    obtain ⟨-, -, -, -, -, -, h7, h8⟩ := h1
    constructor
    · simp only [List.map_cons, List.flatten_cons, List.length_cons]
      rw [countHeaders_serRec, ihc]
      omega
    · simp only [List.map_cons, List.flatten_cons]
      rw [parseClaims_serRec r _ h7 h8, ihp]

/-- C8: sequential ledger appends are order-preserving and
self-delimiting — after appending `N` tame records to the freshly
initialized ledger, a reader splitting the ledger text into lines
recovers exactly `N` record headers (the `"=" * 80` marker followed by
the `[USER FEEDBACK]` stamp) and the `N` claim texts in write order,
with no separate index. -/
theorem c8_ledger_roundtrip (rs : List FeedbackRecord)
    (h : ∀ r ∈ rs, tame r) :
    countHeaders (linesOf (appendAll initLedger rs)) = rs.length
      ∧ parseClaims (linesOf (appendAll initLedger rs))
        = rs.map FeedbackRecord.content := by
  have hinit : initLedger ++ (rs.map serText).flatten
      = str "--- Trusted User Feedback Database Initialized ---"
        ++ '\n' :: (rs.map serText).flatten := rfl
  rw [appendAll_flatten, hinit,
    linesOf_chunk _ (by decide), flat_lines rs h]
  obtain ⟨hc, hp⟩ := flat_count rs h
  constructor
  · rw [countHeaders_skip _ _ (by decide), hc]
  · rw [parseClaims_skip _ _ (by decide), hp]

/-- Witness for C8: two concrete submissions read back as two records in
write order. -/
theorem c8_witness :
    countHeaders (linesOf (appendAll initLedger
        [⟨str "http://a", [], str "claim one", str "fact",
            str "proof one", str "t1"⟩,
          ⟨str "http://b", str "ctx", str "claim two", str "fake_fact",
            str "proof two", str "t2"⟩])) = 2
      ∧ parseClaims (linesOf (appendAll initLedger
          [⟨str "http://a", [], str "claim one", str "fact",
              str "proof one", str "t1"⟩,
            ⟨str "http://b", str "ctx", str "claim two", str "fake_fact",
              str "proof two", str "t2"⟩]))
        = [str "claim one", str "claim two"] :=
  c8_ledger_roundtrip
    [⟨str "http://a", [], str "claim one", str "fact",
        str "proof one", str "t1"⟩,
      ⟨str "http://b", str "ctx", str "claim two", str "fake_fact",
        str "proof two", str "t2"⟩]
    (by decide)

end FactCheck
